import Mathlib

/-!
Verification of the replica-resolver Lambda handler and stack wiring of the
segun-cdk-project repository.

The handler code lives in `src/assets/_lambda/handler.py` (the variant wired
into the CDK stack) and `src/assets/lambda/handler.py` (an older variant).
Python strings are embedded as lists of Unicode code points (`List Nat`);
`str.strip()` and `str.lower()` are embedded on the ASCII fragment that all
environment values use (ASCII whitespace, ASCII case mapping).
-/

/-- A Python string, as its list of code points. -/
abbrev PyStr := List Nat

/-- Code points of a Lean string literal, used to write concrete Python strings. -/
def str (s : String) : PyStr := s.data.map Char.toNat

/-- ASCII whitespace test, embedding the characters `str.strip()` removes. -/
def pyIsSpace (c : Nat) : Bool :=
  decide (c = 9 ∨ c = 10 ∨ c = 11 ∨ c = 12 ∨ c = 13 ∨ c = 32)

/-- ASCII lower-casing of one code point, embedding `str.lower()` per character. -/
def pyLowerChar (c : Nat) : Nat :=
  if 65 ≤ c ∧ c ≤ 90 then c + 32 else c

/-- Embedding of `str.lstrip()`: drop leading whitespace. -/
def pyLStrip (s : PyStr) : PyStr := s.dropWhile pyIsSpace

/-- Embedding of `str.rstrip()`: drop trailing whitespace. -/
def pyRStrip (s : PyStr) : PyStr := (s.reverse.dropWhile pyIsSpace).reverse

/-- Embedding of `str.strip()`: drop whitespace at both ends. -/
def pyStrip (s : PyStr) : PyStr := pyRStrip (pyLStrip s)

/-- Embedding of `str.lower()`. -/
def pyLower (s : PyStr) : PyStr := s.map pyLowerChar

/-- Embedding of `(env_value or "").strip().lower()`: the normalization performed at the top
of `_replicas_from_env` in `src/assets/_lambda/handler.py`. (`x or ""` is the
identity on strings: it only replaces the empty string by itself.) -/
def pyNorm (s : PyStr) : PyStr := pyLower (pyStrip s)

/-- Function `_replicas_from_env` of `src/assets/_lambda/handler.py`:
normalize, then `development ↦ 1`, `staging`/`production ↦ 2`, default `1`. -/
def _replicas_from_env (env_value : PyStr) : Nat :=
  let v := pyNorm env_value
  if v = str "development" then 1
  else if v = str "staging" ∨ v = str "production" then 2
  else 1

/-- Function `_replicas_from_env` of `src/assets/lambda/handler.py`: identical logic,
written with `env_value == "staging" or env_value == "production"` in the source. -/
def _replicas_from_env_l (env_value : PyStr) : Nat :=
  let v := pyNorm env_value
  if v = str "development" then 1
  else if v = str "staging" ∨ v = str "production" then 2
  else 1

/-- Outcome of one `ssm.get_parameter` call against the remote store:
success with a value, a `ClientError` carrying an optional error code
(`ParameterNotFound` or anything else), a `BotoCoreError`, or any other
exception. -/
inductive FetchOutcome where
  | found (v : PyStr)
  | clientError (code : Option PyStr)
  | botoCoreError
  | otherError
deriving DecidableEq

/-- Function `_get_env_value` of `src/assets/_lambda/handler.py`, as a function of the
fetch outcome. A `ClientError` whose code is `ParameterNotFound` and every
other `ClientError` both fall back to `"development"` (only the log line
differs); a `BotoCoreError` is caught by the generic `except Exception`
branch, as is any other exception. -/
def _get_env_value (o : FetchOutcome) : PyStr :=
  match o with
  | .found v => v
  | .clientError code =>
      if code = some (str "ParameterNotFound") then str "development"
      else str "development"
  | .botoCoreError => str "development"
  | .otherError => str "development"

/-- Function `_get_env_value` of `src/assets/lambda/handler.py`: same as above but with
a dedicated `except BotoCoreError` branch before the generic one. -/
def _get_env_value_l (o : FetchOutcome) : PyStr :=
  match o with
  | .found v => v
  | .clientError code =>
      if code = some (str "ParameterNotFound") then str "development"
      else str "development"
  | .botoCoreError => str "development"
  | .otherError => str "development"

/-- The `Data` record of a custom-resource response: `ReplicaCount` plus an
optional `EnvironmentValue` key. -/
structure DataRecord where
  replicaCount : Nat
  environmentValue : Option PyStr
deriving DecidableEq

/-- A handler invocation either raises (`RuntimeError` with a message) or
returns a response whose `Data` is a `DataRecord`. -/
inductive HandlerResult where
  | raised (msg : PyStr)
  | returned (data : DataRecord)
deriving DecidableEq

/-- Function `on_event` of `src/assets/_lambda/handler.py`.

Inputs: the event's optional `RequestType` field (`event.get` defaults it to
`"Create"`), the optional `ENVIRONMENT` process variable, and the remote-store
outcome a fetch would produce. Output: the handler result paired with the
number of `ssm.get_parameter` calls performed. `if not param_name` is Python
truthiness: it raises when the variable is unset or set to the empty string. -/
def on_event (requestType : Option PyStr) (environment : Option PyStr)
    (store : FetchOutcome) : HandlerResult × Nat :=
  let request_type := requestType.getD (str "Create")
  match environment with
  | none => (.raised (str "ENVIRONMENT environment variable is required"), 0)
  | some param_name =>
    if param_name = [] then
      (.raised (str "ENVIRONMENT environment variable is required"), 0)
    else if request_type = str "Delete" then
      (.returned ⟨1, none⟩, 0)
    else
      let env_value := _get_env_value store
      let replica_count := _replicas_from_env env_value
      (.returned ⟨replica_count, some env_value⟩, 1)

/-- Value of `parameter_name` of the `ssm.StringParameter` in
`ClusterStack.__init__` (`src/stacks/cluster/cluster_stacks.py`). -/
def clusterEnvParameterName : PyStr := str "/platform/account/env"

/-- The value wired under the `ENVIRONMENT` key of the Lambda `environment`
mapping in `NginxIngressStack.deploy_ingress_controller`
(`src/stacks/platform/nginx_ingress_stack.py`). -/
def nginxLambdaEnvironmentValue : PyStr := str "/platform/account/env"

/-! ### Normalization lemmas -/

lemma pyLowerChar_idem (c : Nat) : pyLowerChar (pyLowerChar c) = pyLowerChar c := by
  unfold pyLowerChar
  split_ifs with h1 h2 <;> omega

lemma pyIsSpace_pyLowerChar (c : Nat) : pyIsSpace (pyLowerChar c) = pyIsSpace c := by
  unfold pyIsSpace pyLowerChar
  split_ifs with h
  · exact decide_eq_decide.mpr (by omega)
  · rfl

lemma pyLower_idem (s : PyStr) : pyLower (pyLower s) = pyLower s := by
  unfold pyLower
  rw [List.map_map]
  exact List.map_congr_left fun c _ => pyLowerChar_idem c

lemma pyIsSpace_comp_pyLowerChar : pyIsSpace ∘ pyLowerChar = pyIsSpace :=
  funext pyIsSpace_pyLowerChar

lemma pyLStrip_pyLower (s : PyStr) : pyLStrip (pyLower s) = pyLower (pyLStrip s) := by
  unfold pyLStrip pyLower
  rw [List.dropWhile_map, pyIsSpace_comp_pyLowerChar]

lemma pyRStrip_pyLower (s : PyStr) : pyRStrip (pyLower s) = pyLower (pyRStrip s) := by
  unfold pyRStrip pyLower
  rw [← List.map_reverse, List.dropWhile_map, pyIsSpace_comp_pyLowerChar,
    List.map_reverse]

lemma pyStrip_pyLower (s : PyStr) : pyStrip (pyLower s) = pyLower (pyStrip s) := by
  unfold pyStrip
  rw [pyLStrip_pyLower, pyRStrip_pyLower]

lemma dropWhile_idem (p : Nat → Bool) (l : List Nat) :
    List.dropWhile p (List.dropWhile p l) = List.dropWhile p l := by
  induction l with
  | nil => rfl
  | cons c t ih =>
    rw [List.dropWhile_cons]
    split_ifs with h
    · exact ih
    · rw [List.dropWhile_cons, if_neg (by simp [h])]

lemma pyLStrip_idem (s : PyStr) : pyLStrip (pyLStrip s) = pyLStrip s :=
  dropWhile_idem pyIsSpace s

lemma pyRStrip_idem (s : PyStr) : pyRStrip (pyRStrip s) = pyRStrip s := by
  unfold pyRStrip
  rw [List.reverse_reverse, dropWhile_idem]

lemma pyRStrip_cons (c : Nat) (u : PyStr) :
    pyRStrip (c :: u) = [] ∨ ∃ v, pyRStrip (c :: u) = c :: v := by
  unfold pyRStrip
  rw [List.reverse_cons, List.dropWhile_append]
  split_ifs with h
  · rw [List.dropWhile_cons]
    split_ifs with hc
    · exact Or.inl rfl
    · exact Or.inr ⟨[], rfl⟩
  · refine Or.inr ⟨(List.dropWhile pyIsSpace u.reverse).reverse, ?_⟩
    rw [List.reverse_append]
    simp

lemma pyLStrip_pyRStrip (t : PyStr) (h : pyLStrip t = t) :
    pyLStrip (pyRStrip t) = pyRStrip t := by
  cases t with
  | nil => rfl
  | cons c u =>
    have hc : pyIsSpace c = false := by
      by_contra hcc
      rw [Bool.not_eq_false] at hcc
      unfold pyLStrip at h
      rw [List.dropWhile_cons, if_pos hcc] at h
      have := congrArg List.length h
      have hle := (List.dropWhile_sublist (l := u) pyIsSpace).length_le
      simp at this
      omega
    rcases pyRStrip_cons c u with h0 | ⟨v, hv⟩
    · rw [h0]; rfl
    · rw [hv]
      unfold pyLStrip
      rw [List.dropWhile_cons, if_neg (by simp [hc])]

lemma pyStrip_idem (s : PyStr) : pyStrip (pyStrip s) = pyStrip s := by
  unfold pyStrip
  rw [pyLStrip_pyRStrip (pyLStrip s) (pyLStrip_idem s), pyRStrip_idem]

lemma pyNorm_idem (s : PyStr) : pyNorm (pyNorm s) = pyNorm s := by
  unfold pyNorm
  rw [pyStrip_pyLower, pyLower_idem, pyStrip_idem]

/-! ### Helper lemmas about the handler -/

lemma replicas_from_env_cases (s : PyStr) :
    _replicas_from_env s = 1 ∨ _replicas_from_env s = 2 := by
  simp only [_replicas_from_env]
  split_ifs <;> simp

lemma replicas_from_env_pyNorm (s : PyStr) :
    _replicas_from_env (pyNorm s) = _replicas_from_env s := by
  simp only [_replicas_from_env]
  rw [pyNorm_idem]

/-! ### Claims -/

/-- C1: for every normalized environment value `v`, `_replicas_from_env`
returns `2` iff `v` is `"staging"` or `"production"`, and `1` otherwise;
on every input it returns no value other than `1` or `2`. -/
theorem C1_replica_mapping :
    (∀ v : PyStr, pyNorm v = v →
      ((_replicas_from_env v = 2 ↔ (v = str "staging" ∨ v = str "production")) ∧
       (_replicas_from_env v = 1 ↔ ¬(v = str "staging" ∨ v = str "production")))) ∧
    (∀ s : PyStr, _replicas_from_env s = 1 ∨ _replicas_from_env s = 2) := by
  refine ⟨fun v h => ?_, replicas_from_env_cases⟩
  simp only [_replicas_from_env]
  rw [h]
  by_cases hd : v = str "development"
  · subst hd
    rw [if_pos rfl]
    exact ⟨by decide, by decide⟩
  · rw [if_neg hd]
    by_cases hsp : v = str "staging" ∨ v = str "production"
    · rw [if_pos hsp]
      exact ⟨iff_of_true rfl hsp, iff_of_false (by decide) (not_not_intro hsp)⟩
    · rw [if_neg hsp]
      exact ⟨iff_of_false (by decide) hsp, iff_of_true rfl hsp⟩

/-- Witness for C1 at `v = "production"`. -/
theorem C1_replica_mapping_witness : _replicas_from_env (str "production") = 2 :=
  ((C1_replica_mapping.1 (str "production") (by decide)).1).mpr (Or.inr rfl)

/-- C6: the replica-count mapping is invariant under normalization
(trim and lower-case), and in particular maps `"  Staging "` and
`"staging"` both to `2`. -/
theorem C6_norm_invariant :
    (∀ s : PyStr, _replicas_from_env s = _replicas_from_env (pyNorm s)) ∧
    _replicas_from_env (str "  Staging ") = 2 ∧
    _replicas_from_env (str "staging") = 2 :=
  ⟨fun s => (replicas_from_env_pyNorm s).symm, by decide, by decide⟩

/-- Witness for C6 at `s = "  Production  "`. -/
theorem C6_norm_invariant_witness :
    _replicas_from_env (str "  Production  ") =
      _replicas_from_env (pyNorm (str "  Production  ")) :=
  C6_norm_invariant.1 (str "  Production  ")

/-- C9: the SSM parameter name written by the cluster stack is exactly the
string wired into the Lambda `ENVIRONMENT` variable by the ingress stack. -/
theorem C9_parameter_name_wiring :
    clusterEnvParameterName = nginxLambdaEnvironmentValue := rfl

/-- C10: the two handler variants agree on the pure logic: their
`_replicas_from_env` functions return equal counts on every string, and
their `_get_env_value` functions return equal strings on every remote-store
outcome. -/
theorem C10_variants_agree :
    (∀ s : PyStr, _replicas_from_env s = _replicas_from_env_l s) ∧
    (∀ o : FetchOutcome, _get_env_value o = _get_env_value_l o) :=
  ⟨fun _ => rfl, fun o => by cases o <;> rfl⟩

/-- Witness for C10 at `s = "staging"` and the generic-exception outcome. -/
theorem C10_variants_agree_witness :
    _replicas_from_env (str "staging") = _replicas_from_env_l (str "staging") ∧
    _get_env_value .otherError = _get_env_value_l .otherError :=
  ⟨C10_variants_agree.1 (str "staging"), C10_variants_agree.2 .otherError⟩

/-- C2: on a `Delete` event, `on_event` performs zero remote reads, and
whenever it returns, the returned `Data` is exactly
`{ ReplicaCount: 1 }` with no `EnvironmentValue` key. -/
theorem C2_delete_safe (environment : Option PyStr) (store : FetchOutcome) :
    (on_event (some (str "Delete")) environment store).2 = 0 ∧
    ∀ d : DataRecord,
      (on_event (some (str "Delete")) environment store).1 = .returned d →
        d = ⟨1, none⟩ := by
  cases environment with
  | none => exact ⟨rfl, fun d hd => by simp [on_event] at hd⟩
  | some p =>
    by_cases hp : p = []
    · subst hp
      exact ⟨rfl, fun d hd => by simp [on_event] at hd⟩
    · refine ⟨?_, fun d hd => ?_⟩
      · simp [on_event, hp]
      · simp [on_event, hp] at hd
        exact hd.symm

/-- Witness for C2 at a concrete environment and store outcome. -/
theorem C2_delete_safe_witness :
    (on_event (some (str "Delete")) (some (str "/platform/account/env"))
      (.found (str "staging"))).2 = 0 ∧
    (⟨1, none⟩ : DataRecord) = ⟨1, none⟩ :=
  ⟨(C2_delete_safe (some (str "/platform/account/env")) (.found (str "staging"))).1,
   (C2_delete_safe (some (str "/platform/account/env")) (.found (str "staging"))).2
     ⟨1, none⟩ (by decide)⟩

/-- C3 counterexample: with `ENVIRONMENT` set to the empty string (so the
variable is set, not unset), `on_event` still raises, contradicting the claim
that it raises only when the variable is unset. -/
theorem C3_counterexample :
    (some ([] : PyStr) ≠ (none : Option PyStr)) ∧
    (on_event (some (str "Create")) (some ([] : PyStr)) (.found (str "staging"))).1 =
      .raised (str "ENVIRONMENT environment variable is required") := by
  exact ⟨by decide, by decide⟩

/-- C3 amended: `on_event` raises iff `ENVIRONMENT` is unset or set to the
empty string; whenever it raises, no remote read has been attempted; and when
`ENVIRONMENT` is set to a non-empty string it returns normally for every
event and every remote-store outcome. -/
theorem C3_fatal_only_missing_env (requestType : Option PyStr)
    (environment : Option PyStr) (store : FetchOutcome) :
    ((∃ m, (on_event requestType environment store).1 = .raised m) ↔
      (environment = none ∨ environment = some [])) ∧
    ((environment = none ∨ environment = some []) →
      (on_event requestType environment store).2 = 0) ∧
    (environment ≠ none → environment ≠ some [] →
      ∃ d, (on_event requestType environment store).1 = .returned d) := by
  cases environment with
  | none =>
    exact ⟨iff_of_true ⟨_, rfl⟩ (Or.inl rfl), fun _ => rfl, fun h _ => absurd rfl h⟩
  | some p =>
    by_cases hp : p = []
    · subst hp
      exact ⟨iff_of_true ⟨_, rfl⟩ (Or.inr rfl), fun _ => rfl, fun _ h => absurd rfl h⟩
    · refine ⟨iff_of_false ?_ (by simp [hp]), fun h => by simp [hp] at h, fun _ _ => ?_⟩
      · rintro ⟨m, hm⟩
        by_cases hd : requestType.getD (str "Create") = str "Delete" <;>
          simp [on_event, hp, hd] at hm
      · by_cases hd : requestType.getD (str "Create") = str "Delete"
        · exact ⟨⟨1, none⟩, by simp [on_event, hp, hd]⟩
        · exact ⟨⟨_replicas_from_env (_get_env_value store),
            some (_get_env_value store)⟩, by simp [on_event, hp, hd]⟩

/-- Witness for C3 (amended) at concrete inputs: a raise with the variable
unset, zero reads there, and a normal return with the variable set. -/
theorem C3_fatal_only_missing_env_witness :
    (∃ m, (on_event (some (str "Create")) none .otherError).1 = .raised m) ∧
    (on_event (some (str "Create")) none .otherError).2 = 0 ∧
    (∃ d, (on_event (some (str "Create")) (some (str "/platform/account/env"))
      .otherError).1 = .returned d) :=
  ⟨(C3_fatal_only_missing_env (some (str "Create")) none .otherError).1.mpr
      (Or.inl rfl),
   (C3_fatal_only_missing_env (some (str "Create")) none .otherError).2.1
      (Or.inl rfl),
   (C3_fatal_only_missing_env (some (str "Create"))
      (some (str "/platform/account/env")) .otherError).2.2
      (by decide) (by decide)⟩

/-- C4: for a Create or Update event, a remote `ParameterNotFound` outcome,
any other `ClientError` outcome and a generic exception outcome all yield the
identical result `{ ReplicaCount: 1, EnvironmentValue: "development" }`. -/
theorem C4_fallback_identical (rt p : PyStr)
    (hrt : rt = str "Create" ∨ rt = str "Update") (hp : p ≠ []) :
    (∀ code : Option PyStr,
      on_event (some rt) (some p) (.clientError code) =
        (.returned ⟨1, some (str "development")⟩, 1)) ∧
    on_event (some rt) (some p) .otherError =
      (.returned ⟨1, some (str "development")⟩, 1) := by
  have hd : rt ≠ str "Delete" := by
    rcases hrt with h | h <;> subst h <;> decide
  have h1 : _replicas_from_env (str "development") = 1 := by decide
  constructor
  · intro code
    have hv : _get_env_value (.clientError code) = str "development" := by
      simp only [_get_env_value]
      split_ifs <;> rfl
    simp only [on_event, Option.getD_some, if_neg hp, if_neg hd, hv, h1]
  · have hv : _get_env_value .otherError = str "development" := rfl
    simp only [on_event, Option.getD_some, if_neg hp, if_neg hd, hv, h1]

/-- Witness for C4 at a Create event, the `ParameterNotFound` code and the
parameter name used in the repository. -/
theorem C4_fallback_identical_witness :
    on_event (some (str "Create")) (some (str "/platform/account/env"))
        (.clientError (some (str "ParameterNotFound"))) =
      (.returned ⟨1, some (str "development")⟩, 1) :=
  (C4_fallback_identical (str "Create") (str "/platform/account/env")
    (Or.inl rfl) (by decide)).1 (some (str "ParameterNotFound"))

/-- C5 counterexample: on a successful fetch of `"  Staging "`, the returned
`EnvironmentValue` is the raw fetched string, which differs from its
normalized form, contradicting the claim that the normalized form is
returned. -/
theorem C5_counterexample :
    (on_event (some (str "Create")) (some (str "/platform/account/env"))
        (.found (str "  Staging "))).1 =
      .returned ⟨2, some (str "  Staging ")⟩ ∧
    str "  Staging " ≠ pyNorm (str "  Staging ") := by
  exact ⟨by decide, by decide⟩

/-- C5 amended: on a successful fetch of `s` for a non-Delete event, the
returned `EnvironmentValue` is the raw fetched value `s` itself (not its
normalized form), while the `ReplicaCount` equals the mapping of the
normalized form of `s`. -/
theorem C5_environment_value_raw (rt p s : PyStr)
    (hrt : rt = str "Create" ∨ rt = str "Update") (hp : p ≠ []) :
    (on_event (some rt) (some p) (.found s)).1 =
      .returned ⟨_replicas_from_env (pyNorm s), some s⟩ := by
  have hd : rt ≠ str "Delete" := by
    rcases hrt with h | h <;> subst h <;> decide
  have hv : _get_env_value (.found s) = s := rfl
  simp only [on_event, Option.getD_some, if_neg hp, if_neg hd, hv,
    replicas_from_env_pyNorm s]

/-- Witness for C5 (amended) at the fetched value `"  Staging "`. -/
theorem C5_environment_value_raw_witness :
    (on_event (some (str "Update")) (some (str "/platform/account/env"))
        (.found (str "  Staging "))).1 =
      .returned ⟨_replicas_from_env (pyNorm (str "  Staging ")),
        some (str "  Staging ")⟩ :=
  C5_environment_value_raw (str "Update") (str "/platform/account/env")
    (str "  Staging ") (Or.inr rfl) (by decide)

/-- C7: in every non-raising invocation of `on_event`, the `ReplicaCount`
field of the returned `Data` record is `1` or `2`. -/
theorem C7_replica_range (requestType environment : Option PyStr)
    (store : FetchOutcome) (d : DataRecord)
    (h : (on_event requestType environment store).1 = .returned d) :
    d.replicaCount = 1 ∨ d.replicaCount = 2 := by
  cases environment with
  | none => simp [on_event] at h
  | some p =>
    by_cases hp : p = []
    · subst hp
      simp [on_event] at h
    · by_cases hd : requestType.getD (str "Create") = str "Delete"
      · simp [on_event, hp, hd] at h
        rw [← h]
        exact Or.inl rfl
      · simp [on_event, hp, hd] at h
        rw [← h]
        exact replicas_from_env_cases (_get_env_value store)

/-- Witness for C7 at a concrete Create event with a fetched value of
`"production"`. -/
theorem C7_replica_range_witness :
    ((⟨2, some (str "production")⟩ : DataRecord).replicaCount = 1 ∨
     (⟨2, some (str "production")⟩ : DataRecord).replicaCount = 2) :=
  C7_replica_range (some (str "Create")) (some (str "/platform/account/env"))
    (.found (str "production")) ⟨2, some (str "production")⟩ (by decide)

/-- C8: `on_event` is deterministic: two invocations with identical event
request type, identical `ENVIRONMENT` setting and identical remote-store
outcome produce identical results and identical read counts. -/
theorem C8_deterministic (rt rt' env env' : Option PyStr)
    (store store' : FetchOutcome)
    (h1 : rt = rt') (h2 : env = env') (h3 : store = store') :
    on_event rt env store = on_event rt' env' store' := by
  subst h1; subst h2; subst h3; rfl

/-- Witness for C8 at identical concrete inputs. -/
theorem C8_deterministic_witness :
    on_event (some (str "Update")) (some (str "/platform/account/env"))
        (.found (str "staging")) =
      on_event (some (str "Update")) (some (str "/platform/account/env"))
        (.found (str "staging")) :=
  C8_deterministic (some (str "Update")) (some (str "Update"))
    (some (str "/platform/account/env")) (some (str "/platform/account/env"))
    (.found (str "staging")) (.found (str "staging")) rfl rfl rfl
